import Mathlib

/-!
Shallow embedding of `vllm/inputs/data.py`: the caller-facing prompt
schemas (`TextPrompt`, `TokensPrompt`, `EmbedsPrompt`, `SingletonPrompt`,
`ExplicitEncoderDecoderPrompt`), the normalized engine-internal forms
(`TokenInputs`, `EmbedInputs`, `EmptyInputs`), their constructor
functions (`token_inputs`, `embed_inputs`, `empty_inputs`,
`build_explicit_enc_dec_prompt`), and the batch helpers
(`zip_enc_dec_prompts`, `to_enc_dec_tuple_list`).

Python `TypedDict` fields marked `NotRequired` are modelled as `Option`
fields: `none` means the key is absent from the runtime dict.  The
multimodal payload (`MultiModalDataDict`) and the embedding tensor
(`torch.Tensor`) are opaque to this module, so they appear as type
parameters `M` and `T`.  A second, dict-level view (`PyVal`) models the
runtime representation of the Python `TypedDict` values (plain dicts
keyed by strings, with `NotRequired` keys omitted), which is needed to
compare values of distinct `TypedDict` schemas the way Python would.
-/

namespace VllmInputs

/-- Schema for a text prompt (`TextPrompt` TypedDict): required `prompt`
string, optional multimodal payload. -/
structure TextPrompt (M : Type) where
  prompt : String
  multi_modal_data : Option M
deriving DecidableEq

/-- Schema for a tokenized prompt (`TokensPrompt` TypedDict): required
token-id list, optional multimodal payload. -/
structure TokensPrompt (M : Type) where
  prompt_token_ids : List Int
  multi_modal_data : Option M
deriving DecidableEq

/-- Schema for an embeddings prompt (`EmbedsPrompt` TypedDict): required
tensor, optional multimodal payload. -/
structure EmbedsPrompt (T M : Type) where
  prompt_embeds : T
  multi_modal_data : Option M
deriving DecidableEq

/-- The union `SingletonPrompt = Union[str, TextPrompt, TokensPrompt,
EmbedsPrompt]` from the source. -/
inductive SingletonPrompt (T M : Type) : Type where
  | str (s : String)
  | text (p : TextPrompt M)
  | tokens (p : TokensPrompt M)
  | embeds (p : EmbedsPrompt T M)
deriving DecidableEq

/-- The `ExplicitEncoderDecoderPrompt` TypedDict: a required
`encoder_prompt` and an `Optional` (nullable, but required-key)
`decoder_prompt`.  It is generic over the two prompt types, mirroring
the `_T1_co`/`_T2_co` type variables of the source. -/
structure ExplicitEncoderDecoderPrompt (α β : Type) where
  encoder_prompt : α
  decoder_prompt : Option β
deriving DecidableEq

/-- The `TokenInputs` TypedDict: discriminant `type` (always `"token"`
when built by the sanctioned constructor), required token ids, optional
original prompt text, optional multimodal payload. -/
structure TokenInputs (M : Type) where
  type : String
  prompt_token_ids : List Int
  prompt : Option String
  multi_modal_data : Option M
deriving DecidableEq

/-- The constructor `token_inputs`: builds the dict with `type="token"`
and the ids, then conditionally inserts `prompt` and `multi_modal_data`
only when the corresponding argument is not `None`, exactly as the
source does. -/
def token_inputs {M : Type} (prompt_token_ids : List Int)
    (prompt : Option String) (multi_modal_data : Option M) :
    TokenInputs M :=
  let inputs : TokenInputs M :=
    { type := "token", prompt_token_ids := prompt_token_ids,
      prompt := Option.none, multi_modal_data := Option.none }
  let inputs :=
    match prompt with
    | Option.some p => { inputs with prompt := Option.some p }
    | Option.none => inputs
  let inputs :=
    match multi_modal_data with
    | Option.some d => { inputs with multi_modal_data := Option.some d }
    | Option.none => inputs
  inputs

/-- The `EmbedInputs` TypedDict: discriminant `type` (always `"embed"`
when built by the constructor), required tensor, optional multimodal
payload. -/
structure EmbedInputs (T M : Type) where
  type : String
  prompt_embeds : T
  multi_modal_data : Option M
deriving DecidableEq

/-- The constructor `embed_inputs`: builds the dict with `type="embed"`
and the tensor, then conditionally inserts `multi_modal_data` only when
the argument is not `None`, exactly as the source does. -/
def embed_inputs {T M : Type} (prompt_embeds : T)
    (multi_modal_data : Option M) : EmbedInputs T M :=
  let inputs : EmbedInputs T M :=
    { type := "embed", prompt_embeds := prompt_embeds,
      multi_modal_data := Option.none }
  let inputs :=
    match multi_modal_data with
    | Option.some d => { inputs with multi_modal_data := Option.some d }
    | Option.none => inputs
  inputs

/-- The `EmptyInputs` TypedDict: its only field is the discriminant
`type`. -/
structure EmptyInputs where
  type : String
deriving DecidableEq

/-- The constructor `empty_inputs`: nullary in Python, so it takes a
`Unit` argument here (one argument per call site), and returns the dict
`{type: "empty"}`. -/
def empty_inputs (_ : Unit) : EmptyInputs :=
  { type := "empty" }

/-- The constructor `build_explicit_enc_dec_prompt`: wraps an encoder
prompt and an optional decoder prompt into an
`ExplicitEncoderDecoderPrompt`. -/
def build_explicit_enc_dec_prompt {α β : Type} (encoder_prompt : α)
    (decoder_prompt : Option β) : ExplicitEncoderDecoderPrompt α β :=
  { encoder_prompt := encoder_prompt, decoder_prompt := decoder_prompt }

/-- The helper `zip_enc_dec_prompts`: pairs the two sequences
positionally with Python `zip` semantics (truncation to the shorter
length, which is what `List.zip` does), applying
`build_explicit_enc_dec_prompt` to each pair. -/
def zip_enc_dec_prompts {α β : Type} (enc_prompts : List α)
    (dec_prompts : List (Option β)) :
    List (ExplicitEncoderDecoderPrompt α β) :=
  (enc_prompts.zip dec_prompts).map fun ed =>
    build_explicit_enc_dec_prompt ed.1 ed.2

/-- The helper `to_enc_dec_tuple_list`: projects each
`ExplicitEncoderDecoderPrompt` back to the tuple of its
`encoder_prompt` and `decoder_prompt` fields, in order. -/
def to_enc_dec_tuple_list {α β : Type}
    (enc_dec_prompts : List (ExplicitEncoderDecoderPrompt α β)) :
    List (α × Option β) :=
  enc_dec_prompts.map fun p => (p.encoder_prompt, p.decoder_prompt)

/-- Runtime view of the Python values handled by this module: at
runtime a `TypedDict` is a plain dict keyed by strings, a bare string
prompt is a string, `None` is `None`, and the opaque tensor and
multimodal payloads are foreign objects.  `NotRequired` keys that were
not supplied are simply absent from the dict's key set. -/
inductive PyVal (T M : Type) : Type where
  | pyNone
  | pyStr (s : String)
  | pyIntList (l : List Int)
  | pyTensor (t : T)
  | pyMM (m : M)
  | pyDict (fields : List (String × PyVal T M))

/-- Dict entries contributed by an optional `multi_modal_data` field:
one entry when the payload is present, no entry at all when absent. -/
def mmEntries {T M : Type} : Option M → List (String × PyVal T M)
  | Option.some d => [("multi_modal_data", PyVal.pyMM d)]
  | Option.none => []

/-- Runtime dict (or bare string) corresponding to a
`SingletonPrompt`, with `NotRequired` keys omitted when absent. -/
def SingletonPrompt.toPyVal {T M : Type} :
    SingletonPrompt T M → PyVal T M
  | .str s => .pyStr s
  | .text p =>
      .pyDict ([("prompt", .pyStr p.prompt)] ++ mmEntries p.multi_modal_data)
  | .tokens p =>
      .pyDict ([("prompt_token_ids", .pyIntList p.prompt_token_ids)] ++
        mmEntries p.multi_modal_data)
  | .embeds p =>
      .pyDict ([("prompt_embeds", .pyTensor p.prompt_embeds)] ++
        mmEntries p.multi_modal_data)

/-- Runtime dict of an `ExplicitEncoderDecoderPrompt` over singleton
prompts: both keys are always present (`decoder_prompt` is a required
key of `Optional` type, stored as `None` when absent). -/
def ExplicitEncoderDecoderPrompt.toPyVal {T M : Type}
    (p : ExplicitEncoderDecoderPrompt (SingletonPrompt T M)
      (SingletonPrompt T M)) : PyVal T M :=
  .pyDict [("encoder_prompt", p.encoder_prompt.toPyVal),
    ("decoder_prompt",
      match p.decoder_prompt with
      | Option.some d => d.toPyVal
      | Option.none => .pyNone)]

/-- Runtime dict of an `EmptyInputs` value: the single key `type`. -/
def EmptyInputs.toPyVal {T M : Type} (e : EmptyInputs) : PyVal T M :=
  .pyDict [("type", .pyStr e.type)]

/-- Key lookup in a runtime dict, `Option.none` when the key is absent
or the value is not a dict. -/
def dictLookup {T M : Type} (k : String) : PyVal T M → Option (PyVal T M)
  | .pyDict fields => fields.lookup k
  | _ => Option.none

end VllmInputs

namespace VllmInputs

/-- Unpairing a list built by pairing each tuple of a list of tuples
gives back that list of tuples. -/
theorem to_enc_dec_tuple_list_map_build {α β : Type}
    (l : List (α × Option β)) :
    to_enc_dec_tuple_list
        (l.map fun ed => build_explicit_enc_dec_prompt ed.1 ed.2) = l := by
  induction l with
  | nil => rfl
  | cons x xs ih =>
      simpa [to_enc_dec_tuple_list, build_explicit_enc_dec_prompt,
        List.map_cons] using ih

/-- C1: unpairing the result of zipping recovers exactly the positional
zip of the two sequences truncated to the shorter length: the list of
tuples equals `enc.zip dec` (whose `i`-th element is `(enc[i], dec[i])`
for every `i` below the minimum length, with no further elements), and
its length is `min enc.length dec.length`. -/
theorem to_enc_dec_tuple_list_zip_enc_dec_prompts {α β : Type}
    (enc : List α) (dec : List (Option β)) :
    to_enc_dec_tuple_list (zip_enc_dec_prompts enc dec) = enc.zip dec ∧
      (to_enc_dec_tuple_list (zip_enc_dec_prompts enc dec)).length =
        min enc.length dec.length := by
  constructor
  · exact to_enc_dec_tuple_list_map_build (enc.zip dec)
  · simp [to_enc_dec_tuple_list, zip_enc_dec_prompts]

/-- C2: zipping truncates to the shorter sequence (never an error):
the result length is `min` of the lengths for all inputs, and zipping
the three bare-string encoder prompts `hello`, `world`, `foo` with the
two decoder prompts `bar`, `baz` yields exactly the two pairs
`(hello, bar)` and `(world, baz)`, dropping the third encoder prompt. -/
theorem zip_enc_dec_prompts_truncates :
    (∀ (α β : Type) (enc : List α) (dec : List (Option β)),
      (zip_enc_dec_prompts enc dec).length = min enc.length dec.length) ∧
      zip_enc_dec_prompts
          ([SingletonPrompt.str "hello", SingletonPrompt.str "world",
            SingletonPrompt.str "foo"] : List (SingletonPrompt Unit Unit))
          ([Option.some (SingletonPrompt.str "bar"),
            Option.some (SingletonPrompt.str "baz")] :
            List (Option (SingletonPrompt Unit Unit))) =
        [{ encoder_prompt := SingletonPrompt.str "hello",
           decoder_prompt := Option.some (SingletonPrompt.str "bar") },
         { encoder_prompt := SingletonPrompt.str "world",
           decoder_prompt := Option.some (SingletonPrompt.str "baz") }] := by
  constructor
  · intro α β enc dec
    simp [zip_enc_dec_prompts]
  · rfl

/-- C3: `token_inputs` stamps the discriminant `"token"`, stores the
given token ids unmodified, and its optional `prompt` and
`multi_modal_data` fields are present (with the supplied value) exactly
when the corresponding argument was supplied non-absent. -/
theorem token_inputs_spec {M : Type} (ids : List Int)
    (p : Option String) (m : Option M) :
    (token_inputs ids p m).type = "token" ∧
      (token_inputs ids p m).prompt_token_ids = ids ∧
      (token_inputs ids p m).prompt = p ∧
      (token_inputs ids p m).multi_modal_data = m := by
  cases p <;> cases m <;> exact ⟨rfl, rfl, rfl, rfl⟩

/-- C4: `embed_inputs` stamps the discriminant `"embed"`, stores the
given embedding tensor unmodified, and its optional `multi_modal_data`
field is present (with the supplied value) exactly when the argument
was supplied non-absent. -/
theorem embed_inputs_spec {T M : Type} (e : T) (m : Option M) :
    (embed_inputs e m).type = "embed" ∧
      (embed_inputs e m).prompt_embeds = e ∧
      (embed_inputs e m).multi_modal_data = m := by
  cases m <;> exact ⟨rfl, rfl, rfl⟩

/-- C5: `empty_inputs` is constant: every call returns the record whose
only field is the discriminant `"empty"` (its runtime dict has the
single key `type`), and any two calls return equal values. -/
theorem empty_inputs_constant :
    (∀ u : Unit, empty_inputs u = { type := "empty" }) ∧
      (∀ u : Unit,
        EmptyInputs.toPyVal (T := Unit) (M := Unit) (empty_inputs u) =
          .pyDict [("type", .pyStr "empty")]) ∧
      (∀ u v : Unit, empty_inputs u = empty_inputs v) :=
  ⟨fun _ => rfl, fun _ => rfl, fun _ _ => rfl⟩

/-- C6: unpairing a list built by applying
`build_explicit_enc_dec_prompt` to each (encoder, decoder-or-absent)
tuple, one element at a time, reproduces the original tuples in the
original order. -/
theorem to_enc_dec_tuple_list_of_built {α β : Type}
    (ps : List (α × Option β)) :
    to_enc_dec_tuple_list
        (ps.map fun t => build_explicit_enc_dec_prompt t.1 t.2) = ps :=
  to_enc_dec_tuple_list_map_build ps

/-- C7: pairing an encoder prompt with no decoder prompt keeps the
encoder prompt, stores an absent decoder prompt, and the resulting
runtime dict carries no `type` discriminant key — in particular it is
never equal, as a runtime value, to the normalized `EmptyInputs` dict
tagged `"empty"`. -/
theorem build_explicit_enc_dec_prompt_no_decoder {T M : Type}
    (p : SingletonPrompt T M) :
    (build_explicit_enc_dec_prompt p
        (Option.none : Option (SingletonPrompt T M))).encoder_prompt = p ∧
      (build_explicit_enc_dec_prompt p
        (Option.none : Option (SingletonPrompt T M))).decoder_prompt =
          Option.none ∧
      dictLookup "type"
        (ExplicitEncoderDecoderPrompt.toPyVal
          (build_explicit_enc_dec_prompt p Option.none)) = Option.none ∧
      ∀ u : Unit,
        ExplicitEncoderDecoderPrompt.toPyVal
            (build_explicit_enc_dec_prompt p Option.none) ≠
          EmptyInputs.toPyVal (empty_inputs u) := by
  refine ⟨rfl, rfl, ?_, ?_⟩
  · simp [dictLookup, ExplicitEncoderDecoderPrompt.toPyVal,
      build_explicit_enc_dec_prompt, List.lookup]
  · intro u h
    simp [ExplicitEncoderDecoderPrompt.toPyVal, EmptyInputs.toPyVal,
      build_explicit_enc_dec_prompt, empty_inputs] at h

/-- Witness for C7: the theorem instantiated at the token-id encoder
prompt `[5, 6]` with no decoder prompt. -/
theorem build_explicit_enc_dec_prompt_no_decoder_witness :
    (build_explicit_enc_dec_prompt
        (SingletonPrompt.tokens ⟨[5, 6], Option.none⟩ :
          SingletonPrompt Unit Unit)
        (Option.none : Option (SingletonPrompt Unit Unit))).encoder_prompt =
        SingletonPrompt.tokens ⟨[5, 6], Option.none⟩ ∧
      (build_explicit_enc_dec_prompt
        (SingletonPrompt.tokens ⟨[5, 6], Option.none⟩ :
          SingletonPrompt Unit Unit)
        (Option.none : Option (SingletonPrompt Unit Unit))).decoder_prompt =
          Option.none ∧
      dictLookup "type"
        (ExplicitEncoderDecoderPrompt.toPyVal
          (build_explicit_enc_dec_prompt
            (SingletonPrompt.tokens ⟨[5, 6], Option.none⟩ :
              SingletonPrompt Unit Unit) Option.none)) = Option.none ∧
      ∀ u : Unit,
        ExplicitEncoderDecoderPrompt.toPyVal
            (build_explicit_enc_dec_prompt
              (SingletonPrompt.tokens ⟨[5, 6], Option.none⟩ :
                SingletonPrompt Unit Unit) Option.none) ≠
          EmptyInputs.toPyVal (empty_inputs u) :=
  build_explicit_enc_dec_prompt_no_decoder
    (SingletonPrompt.tokens ⟨[5, 6], Option.none⟩)

/-- C8: the normalizing constructors are total functions of their typed
inputs: for every argument combination, including absent optional
arguments and the empty token-id list, each returns a value of the
declared result type carrying the correct discriminant. -/
theorem constructors_total {T M : Type} :
    (∀ (ids : List Int) (p : Option String) (m : Option M),
      (token_inputs ids p m).type = "token" ∧
        (token_inputs ids p m).prompt_token_ids = ids) ∧
      (∀ (e : T) (m : Option M),
        (embed_inputs e m).type = "embed" ∧
          (embed_inputs e m).prompt_embeds = e) ∧
      (∀ u : Unit, (empty_inputs u).type = "empty") ∧
      token_inputs ([] : List Int) Option.none (Option.none : Option M) =
        { type := "token", prompt_token_ids := [],
          prompt := Option.none, multi_modal_data := Option.none } := by
  refine ⟨?_, ?_, fun _ => rfl, rfl⟩
  · intro ids p m
    cases p <;> cases m <;> exact ⟨rfl, rfl⟩
  · intro e m
    cases m <;> exact ⟨rfl, rfl⟩

/-- C9: every conversion function in this module is deterministic and
depends only on its arguments: equal inputs give equal outputs for
`token_inputs`, `embed_inputs`, `empty_inputs`,
`build_explicit_enc_dec_prompt`, `zip_enc_dec_prompts` and
`to_enc_dec_tuple_list`. -/
theorem conversions_deterministic {T M : Type}
    (a1 a2 : List Int × Option String × Option M) (ha : a1 = a2)
    (b1 b2 : T × Option M) (hb : b1 = b2)
    (u1 u2 : Unit) (hu : u1 = u2)
    (c1 c2 : SingletonPrompt T M × Option (SingletonPrompt T M))
    (hc : c1 = c2)
    (d1 d2 : List (SingletonPrompt T M) ×
      List (Option (SingletonPrompt T M))) (hd : d1 = d2)
    (e1 e2 : List (ExplicitEncoderDecoderPrompt (SingletonPrompt T M)
      (SingletonPrompt T M))) (he : e1 = e2) :
    token_inputs a1.1 a1.2.1 a1.2.2 = token_inputs a2.1 a2.2.1 a2.2.2 ∧
      embed_inputs b1.1 b1.2 = embed_inputs b2.1 b2.2 ∧
      empty_inputs u1 = empty_inputs u2 ∧
      build_explicit_enc_dec_prompt c1.1 c1.2 =
        build_explicit_enc_dec_prompt c2.1 c2.2 ∧
      zip_enc_dec_prompts d1.1 d1.2 = zip_enc_dec_prompts d2.1 d2.2 ∧
      to_enc_dec_tuple_list e1 = to_enc_dec_tuple_list e2 := by
  subst ha; subst hb; subst hu; subst hc; subst hd; subst he
  exact ⟨rfl, rfl, rfl, rfl, rfl, rfl⟩

/-- Witness for C9: the theorem applied at concrete inputs, each
equality hypothesis discharged by `rfl`. -/
theorem conversions_deterministic_witness :
    token_inputs [1, 2] (Option.some "x") (Option.some ()) =
        token_inputs [1, 2] (Option.some "x") (Option.some ()) ∧
      embed_inputs () (Option.some ()) =
        embed_inputs () (Option.some ()) ∧
      empty_inputs () = empty_inputs () ∧
      build_explicit_enc_dec_prompt
          (SingletonPrompt.str "e" : SingletonPrompt Unit Unit)
          (Option.some (SingletonPrompt.str "d") :
            Option (SingletonPrompt Unit Unit)) =
        build_explicit_enc_dec_prompt (SingletonPrompt.str "e")
          (Option.some (SingletonPrompt.str "d") :
            Option (SingletonPrompt Unit Unit)) ∧
      zip_enc_dec_prompts
          ([SingletonPrompt.str "e"] : List (SingletonPrompt Unit Unit))
          ([Option.some (SingletonPrompt.str "d")] :
            List (Option (SingletonPrompt Unit Unit))) =
        zip_enc_dec_prompts [SingletonPrompt.str "e"]
          ([Option.some (SingletonPrompt.str "d")] :
            List (Option (SingletonPrompt Unit Unit))) ∧
      to_enc_dec_tuple_list
          ([{ encoder_prompt := SingletonPrompt.str "e",
              decoder_prompt := Option.none }] :
            List (ExplicitEncoderDecoderPrompt (SingletonPrompt Unit Unit)
              (SingletonPrompt Unit Unit))) =
        to_enc_dec_tuple_list
          [{ encoder_prompt := SingletonPrompt.str "e",
             decoder_prompt := Option.none }] :=
  conversions_deterministic
    ([1, 2], Option.some "x", Option.some ()) _ rfl
    ((), Option.some ()) _ rfl () () rfl
    (SingletonPrompt.str "e", Option.some (SingletonPrompt.str "d")) _ rfl
    ([SingletonPrompt.str "e"], [Option.some (SingletonPrompt.str "d")]) _
    rfl
    [{ encoder_prompt := SingletonPrompt.str "e",
       decoder_prompt := Option.none }] _ rfl

/-- C10: `to_enc_dec_tuple_list` is a length-preserving pointwise
projection: the output has the same length as the input and its `i`-th
tuple is exactly the `i`-th input's `encoder_prompt` and
`decoder_prompt`, unmodified and in the original order. -/
theorem to_enc_dec_tuple_list_projects {α β : Type}
    (ps : List (ExplicitEncoderDecoderPrompt α β)) :
    ∃ h : (to_enc_dec_tuple_list ps).length = ps.length,
      ∀ j : Fin ps.length,
        (to_enc_dec_tuple_list ps).get (Fin.cast h.symm j) =
          ((ps.get j).encoder_prompt, (ps.get j).decoder_prompt) := by
  refine ⟨by simp [to_enc_dec_tuple_list], ?_⟩
  intro j
  simp [to_enc_dec_tuple_list]

end VllmInputs
